import Mathlib

/-!
Verification of `models/resnet.py` (chainer-cifar10): a ResNet-50/101/152
family with optional squeeze-and-excitation gating.

The development has two layers:

* a *shape model* over `ℕ`: every layer is mapped to a function on
  `(batch, channels, height, width)` quadruples returning `Option Shape4`,
  where `none` marks a configuration the underlying library would reject at
  forward time (channel mismatch, kernel larger than padded input, zero
  stride, shape-incompatible residual addition);
* a *value model* over `ℝ`: tensors are total functions
  `ℕ → ℕ → ℕ → ℕ → ℝ` indexed `(b, c, h, w)`, and each operation is the
  real-number semantics of the corresponding Chainer call (convolution as a
  triple sum over the kernel window with zero padding, batch normalization
  with batch statistics, relu, sigmoid, spatial averaging, broadcast and
  transpose).

Constructors (`__init__` methods) are modelled as `Option`-valued smart
constructors: the Python bodies contain no validation and raise only where
Python itself raises (integer division by zero in `SEBlock.__init__`,
list indexing in `ResNet.__init__`), which the models reproduce.
-/

namespace ResNetSpec

/-- A 4-D array shape `(batch, channels, height, width)`. -/
structure Shape4 where
  b : ℕ
  c : ℕ
  h : ℕ
  w : ℕ
  deriving DecidableEq, Repr

/-- The Chainer output-size formula `get_conv_outsize` with `cover_all=False`:
`(size + 2p - k) // s + 1`. -/
def convOutDim (size k s p : ℕ) : ℕ := (size + 2 * p - k) / s + 1

/-- Shape of `L.Convolution2D(cin, cout, k, s, p)` applied to `sh`.
`none` when the input channel count differs from the declared one, the
kernel does not fit in the padded input, or the stride is zero — the cases
where the library raises during the forward pass. -/
def conv2dShape (cin cout k s p : ℕ) (sh : Shape4) : Option Shape4 :=
  if sh.c = cin ∧ k ≤ sh.h + 2 * p ∧ k ≤ sh.w + 2 * p ∧ 1 ≤ s ∧ 1 ≤ k then
    some ⟨sh.b, cout, convOutDim sh.h k s p, convOutDim sh.w k s p⟩
  else none

/-- Shape of `L.Convolution2D(None, cout, k, s, p)`: the input channel
count is inferred at the first call, so any channel count is accepted. -/
def conv2dShapeAnyIn (cout k s p : ℕ) (sh : Shape4) : Option Shape4 :=
  if k ≤ sh.h + 2 * p ∧ k ≤ sh.w + 2 * p ∧ 1 ≤ s ∧ 1 ≤ k then
    some ⟨sh.b, cout, convOutDim sh.h k s p, convOutDim sh.w k s p⟩
  else none

/-- Shape of `L.BatchNormalization(c)`: preserves the shape, but the
channel count must match the declared size. -/
def bnShape (c : ℕ) (sh : Shape4) : Option Shape4 :=
  if sh.c = c then some sh else none

/-- Shape of the elementwise residual addition `h + x`: both operands
must agree exactly. -/
def addShape (s1 s2 : Shape4) : Option Shape4 :=
  if s1 = s2 then some s1 else none

/-- Shape of `SEBlock(n_channel).__call__`: the squeeze (spatial average),
the two `Linear` layers and the gating multiply preserve the input shape;
the `down` layer requires the channel count to equal `n_channel`. -/
def seBlockShape (n_channel : ℕ) (sh : Shape4) : Option Shape4 :=
  if sh.c = n_channel then some sh else none

/-- Construction-time record of one `BottleNeck`.  `__init__`
(resnet.py, lines 46-63) registers the conv/bn links and stores the two
flags; it contains no validation and never raises, so construction
succeeds for every argument. -/
structure BNeckCfg where
  n_in : ℕ
  n_mid : ℕ
  n_out : ℕ
  stride : ℕ
  use_conv : Bool
  add_seblock : Bool
  deriving DecidableEq, Repr

/-- Model of `BottleNeck.__init__(n_in, n_mid, n_out, stride, use_conv, add_seblock)`. -/
def mkBottleNeck (n_in n_mid n_out stride : ℕ) ( use_conv add_seblock : Bool) :
    Option BNeckCfg :=
  some ⟨n_in, n_mid, n_out, stride, use_conv, add_seblock⟩

/-- Shape of `BottleNeck.__call__` (resnet.py, lines 65-71): the main path
is conv1 (1×1, given stride) → bn1 → relu → conv2 (3×3, stride 1, pad 1) →
bn2 → relu → conv3 (1×1, stride 1) → bn3, optionally gated by an
`SEBlock(n_out)`; the result is added to `bn4(conv4(x))` when `use_conv`
and to `x` itself otherwise. -/
def bneckShape (cfg : BNeckCfg) (sh : Shape4) : Option Shape4 := do
  let s1 ← conv2dShape cfg.n_in cfg.n_mid 1 cfg.stride 0 sh
  let s1 ← bnShape cfg.n_mid s1
  let s2 ← conv2dShape cfg.n_mid cfg.n_mid 3 1 1 s1
  let s2 ← bnShape cfg.n_mid s2
  let s3 ← conv2dShape cfg.n_mid cfg.n_out 1 1 0 s2
  let s3 ← bnShape cfg.n_out s3
  let s3 ← if cfg.add_seblock then seBlockShape cfg.n_out s3 else some s3
  if cfg.use_conv then
    let s4 ← conv2dShape cfg.n_in cfg.n_out 1 cfg.stride 0 sh
    let s4 ← bnShape cfg.n_out s4
    addShape s3 s4
  else
    addShape s3 sh

/-- Model of `Block.__init__(n_in, n_mid, n_out, n_bottlenecks, stride)`
(resnet.py, lines 78-81): one projecting `BottleNeck(n_in, n_mid, n_out,
stride, use_conv=True)` followed by `n_bottlenecks - 1` copies of
`BottleNeck(n_out, n_mid, n_out)` (stride 1, `use_conv=False`).  The
Python loop `range(n_bottlenecks - 1)` is empty for `n_bottlenecks ≤ 1`,
which truncated subtraction on `ℕ` reproduces. -/
def mkBlock (n_in n_mid n_out n_bottlenecks stride : ℕ) : List BNeckCfg :=
  ⟨n_in, n_mid, n_out, stride, true, false⟩ ::
    List.replicate (n_bottlenecks - 1) ⟨n_out, n_mid, n_out, 1, false, false⟩

/-- Shape of `Block.__call__` (resnet.py, lines 83-86): fold the units
over the running shape, left to right. -/
def blockShape (units : List BNeckCfg) (sh : Shape4) : Option Shape4 :=
  units.foldl (fun acc cfg => acc >>= bneckShape cfg) (some sh)

/-- Shape of `F.average_pooling_2d(h, h.shape[2:])`: a pooling window
covering the whole remaining spatial extent, collapsing it to 1×1;
requires a nonempty spatial extent. -/
def globalAvgPoolShape (sh : Shape4) : Option Shape4 :=
  if 1 ≤ sh.h ∧ 1 ≤ sh.w then some ⟨sh.b, sh.c, 1, 1⟩ else none

/-- Shape of `L.Linear(None, n_class)` applied to a (post-pooling) tensor:
all non-batch axes are flattened into the inferred input width, and the
output is `(batch, n_class)`. -/
def linearAnyInShape (n_class : ℕ) (sh : Shape4) : ℕ × ℕ :=
  (sh.b, n_class)

/-- Construction-time record of `ResNet(n_class, n_blocks)`
(resnet.py, lines 92-101). -/
structure ResNetCfg where
  n_class : ℕ
  res3 : List BNeckCfg
  res4 : List BNeckCfg
  res5 : List BNeckCfg
  res6 : List BNeckCfg
  deriving DecidableEq, Repr

/-- Model of `ResNet.__init__(n_class, n_blocks)`: a stem `Convolution2D(None, 64,
3, 1, 0)` with `BatchNormalization(64)`, then
`Block(64, 64, 256, n_blocks[0], 1)`, `Block(256, 128, 512, n_blocks[1], 2)`,
`Block(512, 256, 1024, n_blocks[2], 2)`, `Block(1024, 512, 2048,
n_blocks[3], 2)`, then `Linear(None, n_class)`.  The four list indexings
raise `IndexError` when `n_blocks` has fewer than four entries. -/
def mkResNet (n_class : ℕ) (n_blocks : List ℕ) : Option ResNetCfg :=
  if h4 : 4 ≤ n_blocks.length then
    some ⟨n_class,
      mkBlock 64 64 256 (n_blocks.get ⟨0, by omega⟩) 1,
      mkBlock 256 128 512 (n_blocks.get ⟨1, by omega⟩) 2,
      mkBlock 512 256 1024 (n_blocks.get ⟨2, by omega⟩) 2,
      mkBlock 1024 512 2048 (n_blocks.get ⟨3, by omega⟩) 2⟩
  else none

/-- Shape of `ResNet.__call__` (resnet.py, lines 103-111): stem conv →
bn → relu, the four blocks in order, global average pooling over the full
remaining spatial extent, and the final linear classifier. -/
def resnetShape (cfg : ResNetCfg) (sh : Shape4) : Option (ℕ × ℕ) := do
  let s1 ← conv2dShapeAnyIn 64 3 1 0 sh
  let s1 ← bnShape 64 s1
  let s2 ← blockShape cfg.res3 s1
  let s3 ← blockShape cfg.res4 s2
  let s4 ← blockShape cfg.res5 s3
  let s5 ← blockShape cfg.res6 s4
  let s6 ← globalAvgPoolShape s5
  return linearAnyInShape cfg.n_class s6

/-- The constructor `ResNet50.__init__(n_class)` forwards to
`ResNet(n_class, [3, 4, 6, 3])`. -/
def mkResNet50 (n_class : ℕ) : Option ResNetCfg := mkResNet n_class [3, 4, 6, 3]

/-- The constructor `ResNet101.__init__(n_class)` forwards to
`ResNet(n_class, [3, 4, 23, 3])`. -/
def mkResNet101 (n_class : ℕ) : Option ResNetCfg := mkResNet n_class [3, 4, 23, 3]

/-- The constructor `ResNet152.__init__(n_class)` forwards to
`ResNet(n_class, [3, 8, 36, 3])`. -/
def mkResNet152 (n_class : ℕ) : Option ResNetCfg := mkResNet n_class [3, 8, 36, 3]

/-- Construction-time record of `SEBlock.__init__` (resnet.py, lines
23-30), which computes
`reduction_size = n_channel // ratio` and registers the two `Linear`
layers; the only failure Python can raise here is the integer division by
a zero `ratio`. -/
structure SECfg where
  n_channel : ℕ
  reduction_size : ℕ
  deriving DecidableEq, Repr

/-- Smart constructor for `SEBlock`.  No validation is performed on the
computed `reduction_size`; a zero `ratio` raises `ZeroDivisionError`. -/
def mkSEBlock (n_channel r : ℕ) : Option SECfg :=
  if r = 0 then none else some ⟨n_channel, n_channel / r⟩

/-! ## Value model over `ℝ` -/

noncomputable section

/-- A real-valued feature map indexed `(b, c, h, w)`.  Entries outside the
shape tracked alongside are never read by the operations below. -/
abbrev TensorF := ℕ → ℕ → ℕ → ℕ → ℝ

/-- Read `x[b, c, hi, wi]` with zero padding outside the spatial extent
`H × W`. -/
def tGet (H W : ℕ) (x : TensorF) (b c : ℕ) (hi wi : ℤ) : ℝ :=
  if 0 ≤ hi ∧ hi < (H : ℤ) ∧ 0 ≤ wi ∧ wi < (W : ℤ) then
    x b c hi.toNat wi.toNat
  else 0

/-- Semantics of `L.Convolution2D(cin, cout, k, s, p, nobias=True)` on an
input of spatial extent `H × W`: output position `(ho, wo)` sums
`wt[o, i, dh, dw] * x[b, i, ho*s + dh - p, wo*s + dw - p]` over the input
channels and the `k × k` kernel window, with zero padding. -/
def conv2dV (cin k s p H W : ℕ) (wt : ℕ → ℕ → ℕ → ℕ → ℝ) (x : TensorF) : TensorF :=
  fun b o ho wo =>
    ∑ i ∈ Finset.range cin, ∑ dh ∈ Finset.range k, ∑ dw ∈ Finset.range k,
      wt o i dh dw * tGet H W x b i ((ho : ℤ) * s + dh - p) ((wo : ℤ) * s + dw - p)

/-- The Chainer default `eps` of `L.BatchNormalization`. -/
def bnEps : ℝ := 2 / 100000

/-- Per-channel mean over the batch and spatial axes, as used by batch
normalization in training mode. -/
def bnMean (B H W : ℕ) (x : TensorF) (c : ℕ) : ℝ :=
  (∑ b ∈ Finset.range B, ∑ h ∈ Finset.range H, ∑ w ∈ Finset.range W, x b c h w)
    / (B * H * W)

/-- Per-channel variance over the batch and spatial axes. -/
def bnVar (B H W : ℕ) (x : TensorF) (c : ℕ) : ℝ :=
  (∑ b ∈ Finset.range B, ∑ h ∈ Finset.range H, ∑ w ∈ Finset.range W,
      (x b c h w - bnMean B H W x c) ^ 2)
    / (B * H * W)

/-- Semantics of `L.BatchNormalization(c)` in training mode: normalize by
the batch statistics, then scale by `γ` and shift by `β`. -/
def bnV (B H W : ℕ) (γ β : ℕ → ℝ) (x : TensorF) : TensorF :=
  fun b c h w =>
    γ c * ((x b c h w - bnMean B H W x c) / Real.sqrt (bnVar B H W x c + bnEps)) + β c

/-- Semantics of `F.relu` on a 4-D tensor. -/
def reluV (x : TensorF) : TensorF := fun b c h w => max (x b c h w) 0

/-- Semantics of `F.sigmoid` on a scalar. -/
def sigmoid (t : ℝ) : ℝ := 1 / (1 + Real.exp (-t))

/-- Semantics of `F.average(u, axis=(2, 3))`: the per-channel mean over the
spatial axes, producing a `(b, c)`-indexed map. -/
def avgSpatial (H W : ℕ) (u : TensorF) : ℕ → ℕ → ℝ :=
  fun b c => (∑ h ∈ Finset.range H, ∑ w ∈ Finset.range W, u b c h w) / (H * W)

/-- Semantics of `L.Linear(cin, cout)` on a `(b, i)`-indexed map. -/
def linearV (cin : ℕ) (wt : ℕ → ℕ → ℝ) (bias : ℕ → ℝ) (z : ℕ → ℕ → ℝ) :
    ℕ → ℕ → ℝ :=
  fun b j => (∑ i ∈ Finset.range cin, wt j i * z b i) + bias j

/-- Semantics of `F.relu` on a 2-D map. -/
def relu2 (z : ℕ → ℕ → ℝ) : ℕ → ℕ → ℝ := fun b i => max (z b i) 0

/-- Semantics of `F.broadcast_to(x, (H, W, B, C))` on a `(b, c)`-indexed
map: the result is indexed `(h, w, b, c)` and ignores the two leading
indices. -/
def broadcastHWBC (z : ℕ → ℕ → ℝ) : TensorF := fun _h _w b c => z b c

/-- Semantics of `x.transpose((2, 3, 0, 1))`: axis `i` of the result is
axis `(2, 3, 0, 1)[i]` of the argument. -/
def transpose2301 (t : TensorF) : TensorF := fun b c h w => t h w b c

/-- Learnable parameters of an `SEBlock`: the weights and biases of the
`down` and `up` linear layers. -/
structure SEParams where
  wDown : ℕ → ℕ → ℝ
  bDown : ℕ → ℝ
  wUp : ℕ → ℕ → ℝ
  bUp : ℕ → ℝ

/-- The gate computed by `SEBlock.__call__` before broadcasting:
`sigmoid(up(relu(down(average(u, axis=(2, 3))))))`, indexed `(b, c)`. -/
def seGate (cfg : SECfg) (p : SEParams) (H W : ℕ) (u : TensorF) : ℕ → ℕ → ℝ :=
  fun b j =>
    sigmoid (linearV cfg.reduction_size p.wUp p.bUp
      (relu2 (linearV cfg.n_channel p.wDown p.bDown (avgSpatial H W u))) b j)

/-- Semantics of `SEBlock.__call__` (resnet.py, lines 32-42): the input
times the gate broadcast to `(H, W, B, C)` and permuted to `(B, C, H, W)`. -/
def seFwd (cfg : SECfg) (p : SEParams) (H W : ℕ) (u : TensorF) : TensorF :=
  fun b c h w =>
    u b c h w * transpose2301 (broadcastHWBC (seGate cfg p H W u)) b c h w

/-- Learnable parameters of a `BottleNeck`: weights of the three main-path
convolutions, scale/shift of the three normalizations, the optional SE
parameters, and the optional projection-shortcut parameters. -/
structure BNeckParams where
  w1 : ℕ → ℕ → ℕ → ℕ → ℝ
  g1 : ℕ → ℝ
  b1 : ℕ → ℝ
  w2 : ℕ → ℕ → ℕ → ℕ → ℝ
  g2 : ℕ → ℝ
  b2 : ℕ → ℝ
  w3 : ℕ → ℕ → ℕ → ℕ → ℝ
  g3 : ℕ → ℝ
  b3 : ℕ → ℝ
  sep : SEParams
  w4 : ℕ → ℕ → ℕ → ℕ → ℝ
  g4 : ℕ → ℝ
  b4 : ℕ → ℝ

/-- Semantics of `BottleNeck.__call__` (resnet.py, lines 65-71) on an
input of spatial extent `H × W`: conv1 (1×1, stride) → bn1 → relu →
conv2 (3×3, stride 1, pad 1) → bn2 → relu → conv3 (1×1) → bn3, optionally
gated by `SEBlock(n_out)` (default ratio 16), plus `bn4(conv4(x))` when
`use_conv` and plus `x` itself otherwise. -/
def bneckFwdV (cfg : BNeckCfg) (p : BNeckParams) (B H W : ℕ) (x : TensorF) : TensorF :=
  let H1 := convOutDim H 1 cfg.stride 0
  let W1 := convOutDim W 1 cfg.stride 0
  let h1 := reluV (bnV B H1 W1 p.g1 p.b1 (conv2dV cfg.n_in 1 cfg.stride 0 H W p.w1 x))
  let H2 := convOutDim H1 3 1 1
  let W2 := convOutDim W1 3 1 1
  let h2 := reluV (bnV B H2 W2 p.g2 p.b2 (conv2dV cfg.n_mid 3 1 1 H1 W1 p.w2 h1))
  let H3 := convOutDim H2 1 1 0
  let W3 := convOutDim W2 1 1 0
  let h3 := bnV B H3 W3 p.g3 p.b3 (conv2dV cfg.n_mid 1 1 0 H2 W2 p.w3 h2)
  let hm := if cfg.add_seblock then
      seFwd ⟨cfg.n_out, cfg.n_out / 16⟩ p.sep H3 W3 h3
    else h3
  if cfg.use_conv then
    fun b c h w =>
      hm b c h w + bnV B H1 W1 p.g4 p.b4 (conv2dV cfg.n_in 1 cfg.stride 0 H W p.w4 x) b c h w
  else
    fun b c h w => hm b c h w + x b c h w

/-- Spatial extent along one axis after one `BottleNeck`: conv1 (1×1,
stride), conv2 (3×3, stride 1, pad 1), conv3 (1×1). -/
def bneckOutDim (cfg : BNeckCfg) (d : ℕ) : ℕ :=
  convOutDim (convOutDim (convOutDim d 1 cfg.stride 0) 3 1 1) 1 1 0

/-- Semantics of `Block.__call__` (resnet.py, lines 83-86): fold the unit
list over the running tensor, threading the spatial extent. -/
def blockFwdV : List (BNeckCfg × BNeckParams) → ℕ → ℕ → ℕ → TensorF → TensorF
  | [], _, _, _, x => x
  | (cfg, p) :: rest, B, H, W, x =>
      blockFwdV rest B (bneckOutDim cfg H) (bneckOutDim cfg W) (bneckFwdV cfg p B H W x)

/-- Spatial extent along one axis after a whole `Block`. -/
def blockOutDim (units : List BNeckCfg) (d : ℕ) : ℕ :=
  units.foldl (fun a cfg => bneckOutDim cfg a) d

/-- Channel count after a whole `Block` (the `n_out` of the last unit). -/
def blockOutChan (units : List BNeckCfg) (c : ℕ) : ℕ :=
  units.foldl (fun _ cfg => cfg.n_out) c

/-- Learnable parameters of a `ResNet`: stem convolution and
normalization, the four lists of bottleneck parameters, and the final
classifier. -/
structure RParams where
  wStem : ℕ → ℕ → ℕ → ℕ → ℝ
  gStem : ℕ → ℝ
  bStem : ℕ → ℝ
  ps3 : List BNeckParams
  ps4 : List BNeckParams
  ps5 : List BNeckParams
  ps6 : List BNeckParams
  wFc : ℕ → ℕ → ℝ
  bFc : ℕ → ℝ

/-- Semantics of `ResNet.__call__` (resnet.py, lines 103-111): stem conv
(3×3, stride 1, no padding) → bn → relu, the four blocks in order, global
average pooling over the full remaining extent, and the final linear
classifier on the flattened `(B, C, 1, 1)` result. -/
def resnetFwdV (cfg : ResNetCfg) (p : RParams) (B cin H W : ℕ) (x : TensorF) :
    ℕ → ℕ → ℝ :=
  let H0 := convOutDim H 3 1 0
  let W0 := convOutDim W 3 1 0
  let h0 := reluV (bnV B H0 W0 p.gStem p.bStem (conv2dV cin 3 1 0 H W p.wStem x))
  let h3 := blockFwdV (cfg.res3.zip p.ps3) B H0 W0 h0
  let H3 := blockOutDim cfg.res3 H0
  let W3 := blockOutDim cfg.res3 W0
  let h4 := blockFwdV (cfg.res4.zip p.ps4) B H3 W3 h3
  let H4 := blockOutDim cfg.res4 H3
  let W4 := blockOutDim cfg.res4 W3
  let h5 := blockFwdV (cfg.res5.zip p.ps5) B H4 W4 h4
  let H5 := blockOutDim cfg.res5 H4
  let W5 := blockOutDim cfg.res5 W4
  let h6 := blockFwdV (cfg.res6.zip p.ps6) B H5 W5 h5
  let H6 := blockOutDim cfg.res6 H5
  let W6 := blockOutDim cfg.res6 W5
  let cout := blockOutChan cfg.res6 (blockOutChan cfg.res5
    (blockOutChan cfg.res4 (blockOutChan cfg.res3 64)))
  linearV cout p.wFc p.bFc (avgSpatial H6 W6 h6)

/-- All-zero SE parameters, used to instantiate theorems on a concrete
parameter set. -/
def zeroSEP : SEParams := ⟨fun _ _ => 0, fun _ => 0, fun _ _ => 0, fun _ => 0⟩

/-- All-zero bottleneck parameters. -/
def zeroBNP : BNeckParams :=
  ⟨fun _ _ _ _ => 0, fun _ => 0, fun _ => 0,
   fun _ _ _ _ => 0, fun _ => 0, fun _ => 0,
   fun _ _ _ _ => 0, fun _ => 0, fun _ => 0,
   zeroSEP,
   fun _ _ _ _ => 0, fun _ => 0, fun _ => 0⟩

/-- All-zero ResNet parameters with empty per-block parameter lists. -/
def zeroRP : RParams :=
  ⟨fun _ _ _ _ => 0, fun _ => 0, fun _ => 0, [], [], [], [],
   fun _ _ => 0, fun _ => 0⟩

/-- The all-zero feature map. -/
def zeroT : TensorF := fun _ _ _ _ => 0

/-- A concrete feature map with distinct values across indices. -/
def idxT : TensorF := fun b c h w => (b : ℝ) + 2 * c + 3 * h + 5 * w

end

/-! ## Helper lemmas -/

lemma conv2dShape_one (cin cout s : ℕ) (sh : Shape4) (hc : sh.c = cin)
    (hs : 1 ≤ s) (hh : 1 ≤ sh.h) (hw : 1 ≤ sh.w) :
    conv2dShape cin cout 1 s 0 sh =
      some ⟨sh.b, cout, (sh.h - 1) / s + 1, (sh.w - 1) / s + 1⟩ := by
  unfold conv2dShape convOutDim
  rw [if_pos ⟨hc, by omega, by omega, hs, le_refl 1⟩]
  norm_num

lemma conv2dShape_one_unit (cin cout : ℕ) (sh : Shape4) (hc : sh.c = cin)
    (hh : 1 ≤ sh.h) (hw : 1 ≤ sh.w) :
    conv2dShape cin cout 1 1 0 sh = some ⟨sh.b, cout, sh.h, sh.w⟩ := by
  rw [conv2dShape_one cin cout 1 sh hc (le_refl 1) hh hw, Nat.div_one, Nat.div_one,
    Nat.sub_add_cancel hh, Nat.sub_add_cancel hw]

lemma conv2dShape_three (c cout : ℕ) (sh : Shape4) (hc : sh.c = c)
    (hh : 1 ≤ sh.h) (hw : 1 ≤ sh.w) :
    conv2dShape c cout 3 1 1 sh = some ⟨sh.b, cout, sh.h, sh.w⟩ := by
  have e : ∀ d : ℕ, 1 ≤ d → (d + 2 * 1 - 3) / 1 + 1 = d := by intro d hd; omega
  unfold conv2dShape convOutDim
  rw [if_pos ⟨hc, by omega, by omega, le_refl 1, by omega⟩, e sh.h hh, e sh.w hw]

/-- With `use_conv = False` the main path of a `BottleNeck` computes the
shape `(B, n_out, ⌈H/s⌉, ⌈W/s⌉)` and the result is its addition with the
untouched input. -/
lemma bneckShape_noconv (n_in n_mid n_out s B h w : ℕ) (hs : 1 ≤ s)
    (hh : 1 ≤ h) (hw : 1 ≤ w) :
    bneckShape ⟨n_in, n_mid, n_out, s, false, false⟩ ⟨B, n_in, h, w⟩ =
      addShape ⟨B, n_out, (h - 1) / s + 1, (w - 1) / s + 1⟩ ⟨B, n_in, h, w⟩ := by
  have h1 : 1 ≤ (h - 1) / s + 1 := Nat.succ_le_succ (Nat.zero_le _)
  have w1 : 1 ≤ (w - 1) / s + 1 := Nat.succ_le_succ (Nat.zero_le _)
  have e1 := conv2dShape_one n_in n_mid s ⟨B, n_in, h, w⟩ rfl hs hh hw
  have e2 := conv2dShape_three n_mid n_mid
    ⟨B, n_mid, (h - 1) / s + 1, (w - 1) / s + 1⟩ rfl h1 w1
  have e3 := conv2dShape_one_unit n_mid n_out
    ⟨B, n_mid, (h - 1) / s + 1, (w - 1) / s + 1⟩ rfl h1 w1
  simp [bneckShape, e1, e2, e3, bnShape]

/-- An identity unit (`use_conv = False`, equal channel counts, stride 1)
preserves the shape. -/
lemma bneckShape_id (n m B h w : ℕ) (hh : 1 ≤ h) (hw : 1 ≤ w) :
    bneckShape ⟨n, m, n, 1, false, false⟩ ⟨B, n, h, w⟩ = some ⟨B, n, h, w⟩ := by
  rw [bneckShape_noconv n m n 1 B h w (le_refl 1) hh hw, Nat.div_one, Nat.div_one,
    Nat.sub_add_cancel hh, Nat.sub_add_cancel hw]
  simp [addShape]

/-- A projecting unit (`use_conv = True`) outputs
`(B, n_out, ⌈H/s⌉, ⌈W/s⌉)`: both paths apply the stride identically. -/
lemma bneckShape_proj (n_in n_mid n_out s B h w : ℕ) (hs : 1 ≤ s)
    (hh : 1 ≤ h) (hw : 1 ≤ w) :
    bneckShape ⟨n_in, n_mid, n_out, s, true, false⟩ ⟨B, n_in, h, w⟩ =
      some ⟨B, n_out, (h - 1) / s + 1, (w - 1) / s + 1⟩ := by
  have h1 : 1 ≤ (h - 1) / s + 1 := Nat.succ_le_succ (Nat.zero_le _)
  have w1 : 1 ≤ (w - 1) / s + 1 := Nat.succ_le_succ (Nat.zero_le _)
  have e1 := conv2dShape_one n_in n_mid s ⟨B, n_in, h, w⟩ rfl hs hh hw
  have e2 := conv2dShape_three n_mid n_mid
    ⟨B, n_mid, (h - 1) / s + 1, (w - 1) / s + 1⟩ rfl h1 w1
  have e3 := conv2dShape_one_unit n_mid n_out
    ⟨B, n_mid, (h - 1) / s + 1, (w - 1) / s + 1⟩ rfl h1 w1
  have e4 := conv2dShape_one n_in n_out s ⟨B, n_in, h, w⟩ rfl hs hh hw
  simp [bneckShape, e1, e2, e3, e4, bnShape, addShape]

/-- The trailing identity units of a `Block` preserve the shape. -/
lemma blockShape_replicate_id (n m B k h w : ℕ) (hh : 1 ≤ h) (hw : 1 ≤ w) :
    (List.replicate k (⟨n, m, n, 1, false, false⟩ : BNeckCfg)).foldl
      (fun acc cfg => acc >>= bneckShape cfg) (some ⟨B, n, h, w⟩) =
      some ⟨B, n, h, w⟩ := by
  induction k with
  | zero => rfl
  | succ j ih =>
      rw [List.replicate_succ, List.foldl_cons]
      simp only [Option.bind_eq_bind, Option.some_bind]
      rw [bneckShape_id n m B h w hh hw]
      exact ih

/-- Shape of a whole `Block`: the stride acts exactly once, in the first
unit, and the channel count becomes `n_out`. -/
lemma blockShape_mkBlock (n_in n_mid n_out k s B H W : ℕ) (hs : 1 ≤ s)
    (hH : 1 ≤ H) (hW : 1 ≤ W) :
    blockShape (mkBlock n_in n_mid n_out k s) ⟨B, n_in, H, W⟩ =
      some ⟨B, n_out, (H - 1) / s + 1, (W - 1) / s + 1⟩ := by
  unfold blockShape mkBlock
  rw [List.foldl_cons]
  simp only [Option.bind_eq_bind, Option.some_bind]
  rw [bneckShape_proj n_in n_mid n_out s B H W hs hH hW]
  exact blockShape_replicate_id n_out n_mid B (k - 1) _ _
    (Nat.succ_le_succ (Nat.zero_le _)) (Nat.succ_le_succ (Nat.zero_le _))

lemma sigmoid_pos (t : ℝ) : 0 < sigmoid t := by
  unfold sigmoid
  have h := Real.exp_pos (-t)
  positivity

lemma sigmoid_lt_one (t : ℝ) : sigmoid t < 1 := by
  unfold sigmoid
  have h := Real.exp_pos (-t)
  rw [div_lt_one (by linarith)]
  linarith

lemma conv2dV_zero_wt (cin k s p H W : ℕ) (x : TensorF) :
    conv2dV cin k s p H W (fun _ _ _ _ => 0) x = fun _ _ _ _ => 0 := by
  funext b o ho wo
  simp [conv2dV]

lemma bnV_zero_params (B H W : ℕ) (x : TensorF) :
    bnV B H W (fun _ => 0) (fun _ => 0) x = fun _ _ _ _ => 0 := by
  funext b c h w
  simp [bnV]

lemma reluV_zero : reluV (fun _ _ _ _ => 0) = fun _ _ _ _ => (0 : ℝ) := by
  funext b c h w
  simp [reluV]

/-- Gating the all-zero map leaves it all-zero, whatever the gate. -/
lemma seFwd_zero_input (cfg : SECfg) (p : SEParams) (H W : ℕ) :
    seFwd cfg p H W (fun _ _ _ _ => 0) = fun _ _ _ _ => 0 := by
  funext b c h w
  simp [seFwd]

/-! ## Claim theorems -/

/-- C1: the default-constructed ResNet (`n_class = 10`,
`n_blocks = [3, 4, 6, 3]`) maps an input of shape `(1, 3, 32, 32)` to an
output of shape exactly `(1, 10)`: the 3×3 stride-1 unpadded stem, the
four Blocks with strides 1, 2, 2, 2, the global average pooling over the
full remaining spatial extent, and the final linear classifier compose to
that shape. -/
theorem resnet_default_output_shape :
    (mkResNet 10 [3, 4, 6, 3]).bind (fun cfg => resnetShape cfg ⟨1, 3, 32, 32⟩) =
      some (1, 10) := by decide

/-- C2 (counterexample): a `Block` constructed with `n_bottlenecks = 0`
does not consist of 0 units — the constructor unconditionally adds the
projecting unit, so it has exactly 1 unit. -/
theorem block_zero_units_counterexample :
    (mkBlock 64 64 256 0 1).length = 1 ∧ (mkBlock 64 64 256 0 1).length ≠ 0 := by
  decide

/-- C2 (amended, restricted to `n_bottlenecks ≥ 1`): the Block consists of
exactly `n_bottlenecks` units, the first being
`BottleNeck(n_in, n_mid, n_out, stride, use_conv=True)` and the remaining
`n_bottlenecks - 1` being `BottleNeck(n_out, n_mid, n_out)` with stride 1
and `use_conv=False`; the forward pass folds the units left to right over
the running tensor, and (on a valid input) the output channel count is
`n_out` regardless of `n_bottlenecks`. -/
theorem block_composition (n_in n_mid n_out k s : ℕ) (hk : 1 ≤ k) :
    (mkBlock n_in n_mid n_out k s).length = k ∧
    (mkBlock n_in n_mid n_out k s).head? =
      some ⟨n_in, n_mid, n_out, s, true, false⟩ ∧
    (mkBlock n_in n_mid n_out k s).tail =
      List.replicate (k - 1) ⟨n_out, n_mid, n_out, 1, false, false⟩ ∧
    (∀ sh : Shape4, blockShape (mkBlock n_in n_mid n_out k s) sh =
      (mkBlock n_in n_mid n_out k s).foldl
        (fun acc cfg => acc >>= bneckShape cfg) (some sh)) ∧
    ∀ B H W : ℕ, 1 ≤ s → 1 ≤ H → 1 ≤ W →
      blockShape (mkBlock n_in n_mid n_out k s) ⟨B, n_in, H, W⟩ =
        some ⟨B, n_out, (H - 1) / s + 1, (W - 1) / s + 1⟩ := by
  refine ⟨?_, rfl, rfl, fun _ => rfl, ?_⟩
  · simp only [mkBlock, List.length_cons, List.length_replicate]
    omega
  · intro B H W hs hH hW
    exact blockShape_mkBlock n_in n_mid n_out k s B H W hs hH hW

/-- C2 (witness): the amended statement instantiated at
`Block(64, 64, 256, 3, 2)` on an input of shape `(1, 64, 8, 8)`. -/
theorem block_composition_witness :
    1 ≤ 3 ∧
    ((mkBlock 64 64 256 3 2).length = 3 ∧
     (mkBlock 64 64 256 3 2).head? = some ⟨64, 64, 256, 2, true, false⟩ ∧
     (mkBlock 64 64 256 3 2).tail =
       List.replicate 2 ⟨256, 64, 256, 1, false, false⟩ ∧
     (∀ sh : Shape4, blockShape (mkBlock 64 64 256 3 2) sh =
       (mkBlock 64 64 256 3 2).foldl
         (fun acc cfg => acc >>= bneckShape cfg) (some sh)) ∧
     ∀ B H W : ℕ, 1 ≤ 2 → 1 ≤ H → 1 ≤ W →
       blockShape (mkBlock 64 64 256 3 2) ⟨B, 64, H, W⟩ =
         some ⟨B, 256, (H - 1) / 2 + 1, (W - 1) / 2 + 1⟩) :=
  ⟨by decide, block_composition 64 64 256 3 2 (by decide)⟩

/-- C3: for an `SEBlock` with `reduction_size = n_channel // ratio ≥ 1`,
the forward output is exactly the input times the per-channel gate
`sigmoid(up(relu(down(average(u, axis=(2,3))))))` applied uniformly over
the spatial positions (after the `(H, W, B, C)` broadcast and
`(2, 3, 0, 1)` permutation); every gate value lies strictly in `(0, 1)`;
and the output shape equals the input shape `(B, n_channel, H, W)`. -/
theorem seblock_forward_gating (nc rr red H W : ℕ) (p : SEParams) (u : TensorF)
    (_hred : red = nc / rr) (_hge : 1 ≤ red) :
    (∀ b c h w, seFwd ⟨nc, red⟩ p H W u b c h w =
      u b c h w * seGate ⟨nc, red⟩ p H W u b c) ∧
    (∀ b c, 0 < seGate ⟨nc, red⟩ p H W u b c ∧
      seGate ⟨nc, red⟩ p H W u b c < 1) ∧
    (∀ B, seBlockShape nc ⟨B, nc, H, W⟩ = some ⟨B, nc, H, W⟩) := by
  refine ⟨fun _ _ _ _ => rfl, fun b c => ⟨sigmoid_pos _, sigmoid_lt_one _⟩, ?_⟩
  intro B
  simp [seBlockShape]

/-- C3 (witness): the statement instantiated at `SEBlock(16, 16)`
(reduction size 1), all-zero parameters, and the zero input of spatial
extent 1×1. -/
theorem seblock_forward_gating_witness :
    1 = 16 / 16 ∧ 1 ≤ 1 ∧
    ((∀ b c h w, seFwd ⟨16, 1⟩ zeroSEP 1 1 zeroT b c h w =
       zeroT b c h w * seGate ⟨16, 1⟩ zeroSEP 1 1 zeroT b c) ∧
     (∀ b c, 0 < seGate ⟨16, 1⟩ zeroSEP 1 1 zeroT b c ∧
       seGate ⟨16, 1⟩ zeroSEP 1 1 zeroT b c < 1) ∧
     (∀ B, seBlockShape 16 ⟨B, 16, 1, 1⟩ = some ⟨B, 16, 1, 1⟩)) :=
  ⟨by decide, by decide,
   seblock_forward_gating 16 16 1 1 1 zeroSEP zeroT (by decide) (by decide)⟩

/-- C4 (counterexample): `BottleNeck(4, 4, 8, stride=2, use_conv=False)`
is constructed successfully even though `n_in ≠ n_out` and `stride ≠ 1` —
`__init__` performs no validation, so construction does not fail. -/
theorem bneck_unchecked_construction_counterexample :
    mkBottleNeck 4 4 8 2 false false = some ⟨4, 4, 8, 2, false, false⟩ ∧
    ¬((4 : ℕ) = 8 ∧ (2 : ℕ) = 1) := by decide

/-- C4 (amended): `BottleNeck` construction succeeds for every argument
combination, `use_conv=False` with `n_in ≠ n_out` or `stride ≠ 1`
included; the invalid combinations are rejected only during the forward
pass, where the residual addition `h + x` has mismatched shapes (channel
mismatch when `n_in ≠ n_out`; spatial mismatch when `stride ≥ 2` acts on
an extent ≥ 2). -/
theorem bneck_construction_total (n_in n_mid n_out s B H W : ℕ) :
    mkBottleNeck n_in n_mid n_out s false false =
      some ⟨n_in, n_mid, n_out, s, false, false⟩ ∧
    (1 ≤ s → 1 ≤ H → 1 ≤ W → n_in ≠ n_out →
      bneckShape ⟨n_in, n_mid, n_out, s, false, false⟩ ⟨B, n_in, H, W⟩ = none) ∧
    (2 ≤ s → 2 ≤ H → 1 ≤ W →
      bneckShape ⟨n_in, n_mid, n_in, s, false, false⟩ ⟨B, n_in, H, W⟩ = none) := by
  refine ⟨rfl, ?_, ?_⟩
  · intro hs hH hW hne
    rw [bneckShape_noconv n_in n_mid n_out s B H W hs hH hW]
    unfold addShape
    rw [if_neg]
    intro hcontra
    exact hne (congrArg Shape4.c hcontra).symm
  · intro hs hH hW
    rw [bneckShape_noconv n_in n_mid n_in s B H W (by omega) (by omega) hW]
    unfold addShape
    rw [if_neg]
    intro hcontra
    have hlt : (H - 1) / s < H - 1 :=
      Nat.div_lt_self (by omega) (by omega)
    have := congrArg Shape4.h hcontra
    simp only at this
    omega

/-- C4 (witness): the amended statement instantiated at
`BottleNeck(4, 4, 8, 2, use_conv=False)` on shape `(1, 4, 8, 8)`, with
both forward-time mismatch conclusions discharged. -/
theorem bneck_construction_total_witness :
    (mkBottleNeck 4 4 8 2 false false = some ⟨4, 4, 8, 2, false, false⟩ ∧
     (1 ≤ 2 → 1 ≤ 8 → 1 ≤ 8 → 4 ≠ 8 →
       bneckShape ⟨4, 4, 8, 2, false, false⟩ ⟨1, 4, 8, 8⟩ = none) ∧
     (2 ≤ 2 → 2 ≤ 8 → 1 ≤ 8 →
       bneckShape ⟨4, 4, 4, 2, false, false⟩ ⟨1, 4, 8, 8⟩ = none)) ∧
    bneckShape ⟨4, 4, 8, 2, false, false⟩ ⟨1, 4, 8, 8⟩ = none ∧
    bneckShape ⟨4, 4, 4, 2, false, false⟩ ⟨1, 4, 8, 8⟩ = none :=
  ⟨bneck_construction_total 4 4 8 2 1 8 8,
   (bneck_construction_total 4 4 8 2 1 8 8).2.1
     (by decide) (by decide) (by decide) (by decide),
   (bneck_construction_total 4 4 8 2 1 8 8).2.2 (by decide) (by decide) (by decide)⟩

/-- C5 (counterexample): neither malformed configuration is detected at
construction time — `SEBlock(8, 16)` constructs successfully with a
zero-unit hidden layer (`reduction_size = 8 // 16 = 0`), and
`Block(64, 64, 256, 0, 1)` with bottleneck count 0 constructs
successfully (with one unit) instead of failing. -/
theorem construction_unvalidated_counterexample :
    mkSEBlock 8 16 = some ⟨8, 0⟩ ∧ mkSEBlock 8 16 ≠ none ∧
    (mkBlock 64 64 256 0 1).length = 1 := by decide

/-- C5 (amended): the code performs no construction-time validation:
`SEBlock(n_channel, ratio)` constructs successfully for every nonzero
ratio, recording `reduction_size = n_channel // ratio` even when it is 0
(only a zero ratio fails, by division by zero), and
`Block` construction succeeds for every `n_bottlenecks`, producing
`max n_bottlenecks 1` units. -/
theorem construction_unvalidated (nc r n_in n_mid n_out k s : ℕ) (hr : r ≠ 0) :
    mkSEBlock nc r = some ⟨nc, nc / r⟩ ∧
    (mkBlock n_in n_mid n_out k s).length = max k 1 := by
  refine ⟨?_, ?_⟩
  · simp [mkSEBlock, hr]
  · simp only [mkBlock, List.length_cons, List.length_replicate]
    omega

/-- C5 (witness): the amended statement instantiated at `SEBlock(8, 16)`
and `Block(64, 64, 256, 0, 1)`. -/
theorem construction_unvalidated_witness :
    (16 : ℕ) ≠ 0 ∧
    (mkSEBlock 8 16 = some ⟨8, 8 / 16⟩ ∧
     (mkBlock 64 64 256 0 1).length = max 0 1) :=
  ⟨by decide, construction_unvalidated 8 16 64 64 256 0 1 (by decide)⟩

/-- C6: for every `Block` with `n_bottlenecks = k ≥ 1` applied to an input
`(B, n_in, H, W)` (valid: `H, W ≥ 1`, stride ≥ 1), the output is
`(B, n_out, ⌈H/stride⌉, ⌈W/stride⌉)`: the channel count is exactly
`n_out`, the stride acts exactly once — the first (projecting) unit
already yields that shape — and every subsequent identity unit preserves
the spatial dimensions. -/
theorem block_output_shape (n_in n_mid n_out k s B H W : ℕ) (_hk : 1 ≤ k)
    (hs : 1 ≤ s) (hH : 1 ≤ H) (hW : 1 ≤ W) :
    blockShape (mkBlock n_in n_mid n_out k s) ⟨B, n_in, H, W⟩ =
      some ⟨B, n_out, (H - 1) / s + 1, (W - 1) / s + 1⟩ ∧
    bneckShape ⟨n_in, n_mid, n_out, s, true, false⟩ ⟨B, n_in, H, W⟩ =
      some ⟨B, n_out, (H - 1) / s + 1, (W - 1) / s + 1⟩ ∧
    ∀ h w : ℕ, 1 ≤ h → 1 ≤ w →
      bneckShape ⟨n_out, n_mid, n_out, 1, false, false⟩ ⟨B, n_out, h, w⟩ =
        some ⟨B, n_out, h, w⟩ :=
  ⟨blockShape_mkBlock n_in n_mid n_out k s B H W hs hH hW,
   bneckShape_proj n_in n_mid n_out s B H W hs hH hW,
   fun h w hh hw => bneckShape_id n_out n_mid B h w hh hw⟩

/-- C6 (witness): the statement instantiated at `Block(64, 64, 256, 3, 2)`
on an input of shape `(1, 64, 30, 30)`, whose output shape is
`(1, 256, 15, 15)`. -/
theorem block_output_shape_witness :
    1 ≤ 3 ∧ 1 ≤ 2 ∧ 1 ≤ 30 ∧
    (blockShape (mkBlock 64 64 256 3 2) ⟨1, 64, 30, 30⟩ =
       some ⟨1, 256, (30 - 1) / 2 + 1, (30 - 1) / 2 + 1⟩ ∧
     bneckShape ⟨64, 64, 256, 2, true, false⟩ ⟨1, 64, 30, 30⟩ =
       some ⟨1, 256, (30 - 1) / 2 + 1, (30 - 1) / 2 + 1⟩ ∧
     ∀ h w : ℕ, 1 ≤ h → 1 ≤ w →
       bneckShape ⟨256, 64, 256, 1, false, false⟩ ⟨1, 256, h, w⟩ =
         some ⟨1, 256, h, w⟩) :=
  ⟨by decide, by decide, by decide,
   block_output_shape 64 64 256 3 2 1 30 30 (by decide) (by decide)
     (by decide) (by decide)⟩

/-- C7: each depth preset only forwards `n_class` and its fixed
block-count list to the general ResNet constructor — `ResNet50(C)` equals
`ResNet(C, [3, 4, 6, 3])`, `ResNet101(C)` equals
`ResNet(C, [3, 4, 23, 3])`, `ResNet152(C)` equals
`ResNet(C, [3, 8, 36, 3])` — so the resulting architectures give identical
layer shapes on every input. -/
theorem depth_preset_equivalence (C : ℕ) :
    mkResNet50 C = mkResNet C [3, 4, 6, 3] ∧
    mkResNet101 C = mkResNet C [3, 4, 23, 3] ∧
    mkResNet152 C = mkResNet C [3, 8, 36, 3] ∧
    (∀ sh : Shape4, (mkResNet50 C).bind (fun cfg => resnetShape cfg sh) =
      (mkResNet C [3, 4, 6, 3]).bind (fun cfg => resnetShape cfg sh)) ∧
    (∀ sh : Shape4, (mkResNet101 C).bind (fun cfg => resnetShape cfg sh) =
      (mkResNet C [3, 4, 23, 3]).bind (fun cfg => resnetShape cfg sh)) ∧
    (∀ sh : Shape4, (mkResNet152 C).bind (fun cfg => resnetShape cfg sh) =
      (mkResNet C [3, 8, 36, 3]).bind (fun cfg => resnetShape cfg sh)) :=
  ⟨rfl, rfl, rfl, fun _ => rfl, fun _ => rfl, fun _ => rfl⟩

/-- C8: a `BottleNeck` with `use_conv = False` (hence `n_in = n_out` and
stride 1, the shape-valid identity configuration) whose main-path
parameters — the three convolution weights and the three normalization
scales and shifts — are all zero computes the identity: the main path
contributes zero (even through an optional SE gate, which multiplies
zero), and the identity shortcut passes the input through, so
`output = 0 + x = x`. -/
theorem bneck_residual_identity (n m : ℕ) (se : Bool) (p : BNeckParams)
    (B H W : ℕ) (x : TensorF)
    (h1 : p.w1 = fun _ _ _ _ => 0) (h2 : p.g1 = fun _ => 0) (h3 : p.b1 = fun _ => 0)
    (h4 : p.w2 = fun _ _ _ _ => 0) (h5 : p.g2 = fun _ => 0) (h6 : p.b2 = fun _ => 0)
    (h7 : p.w3 = fun _ _ _ _ => 0) (h8 : p.g3 = fun _ => 0) (h9 : p.b3 = fun _ => 0) :
    bneckFwdV ⟨n, m, n, 1, false, se⟩ p B H W x = x := by
  funext b c h w
  simp only [bneckFwdV, h1, h2, h3, h4, h5, h6, h7, h8, h9,
    conv2dV_zero_wt, bnV_zero_params, reluV_zero]
  cases se <;> simp [seFwd_zero_input]

/-- C8 (witness): the statement instantiated at
`BottleNeck(2, 1, 2, 1, use_conv=False, add_seblock=True)` with the
all-zero parameter set on a concrete non-zero input. -/
theorem bneck_residual_identity_witness :
    zeroBNP.w1 = (fun _ _ _ _ => 0) ∧ zeroBNP.g1 = (fun _ => 0) ∧
    zeroBNP.b1 = (fun _ => 0) ∧ zeroBNP.w2 = (fun _ _ _ _ => 0) ∧
    zeroBNP.g2 = (fun _ => 0) ∧ zeroBNP.b2 = (fun _ => 0) ∧
    zeroBNP.w3 = (fun _ _ _ _ => 0) ∧ zeroBNP.g3 = (fun _ => 0) ∧
    zeroBNP.b3 = (fun _ => 0) ∧
    bneckFwdV ⟨2, 1, 2, 1, false, true⟩ zeroBNP 1 1 1 idxT = idxT :=
  ⟨rfl, rfl, rfl, rfl, rfl, rfl, rfl, rfl, rfl,
   bneck_residual_identity 2 1 true zeroBNP 1 1 1 idxT
     rfl rfl rfl rfl rfl rfl rfl rfl rfl⟩

/-- C9: the broadcast-and-multiply stage of `SEBlock.__call__` is an
annihilator for an identically-0 gate vector and the identity for an
identically-1 gate vector, and the forward pass is exactly that stage
applied to the sigmoid gate: `seFwd` multiplies the input pointwise with
the `(2, 3, 0, 1)`-permuted `(H, W, B, C)` broadcast of the gate. -/
theorem se_gate_saturation (cfg : SECfg) (p : SEParams) (H W : ℕ)
    (u : TensorF) (g0 g1 : ℕ → ℕ → ℝ)
    (hz : ∀ b c, g0 b c = 0) (ho : ∀ b c, g1 b c = 1) :
    (∀ b c h w, u b c h w * transpose2301 (broadcastHWBC g0) b c h w = 0) ∧
    (∀ b c h w, u b c h w * transpose2301 (broadcastHWBC g1) b c h w = u b c h w) ∧
    (∀ b c h w, seFwd cfg p H W u b c h w =
      u b c h w * transpose2301 (broadcastHWBC (seGate cfg p H W u)) b c h w) := by
  refine ⟨?_, ?_, fun _ _ _ _ => rfl⟩ <;> intro b c h w <;>
    simp [transpose2301, broadcastHWBC, hz, ho]

/-- C9 (witness): the statement instantiated at a concrete input with the
constant-0 and constant-1 gate vectors. -/
theorem se_gate_saturation_witness :
    (∀ b c : ℕ, (fun _ _ => (0 : ℝ)) b c = 0) ∧
    (∀ b c : ℕ, (fun _ _ => (1 : ℝ)) b c = 1) ∧
    ((∀ b c h w, idxT b c h w *
        transpose2301 (broadcastHWBC (fun _ _ => 0)) b c h w = 0) ∧
     (∀ b c h w, idxT b c h w *
        transpose2301 (broadcastHWBC (fun _ _ => 1)) b c h w = idxT b c h w) ∧
     (∀ b c h w, seFwd ⟨16, 1⟩ zeroSEP 1 1 idxT b c h w =
        idxT b c h w *
          transpose2301 (broadcastHWBC (seGate ⟨16, 1⟩ zeroSEP 1 1 idxT)) b c h w)) :=
  ⟨fun _ _ => rfl, fun _ _ => rfl,
   se_gate_saturation ⟨16, 1⟩ zeroSEP 1 1 idxT (fun _ _ => 0) (fun _ _ => 1)
     (fun _ _ => rfl) (fun _ _ => rfl)⟩

/-- C10: each forward computation — `SEBlock`, `BottleNeck`, `Block`,
`ResNet` — is a deterministic pure function of its input under fixed
parameters: equal input tensors give equal outputs. -/
theorem forward_deterministic (secfg : SECfg) (sp : SEParams)
    (bc : BNeckCfg) (bp : BNeckParams) (us : List (BNeckCfg × BNeckParams))
    (rc : ResNetCfg) (rp : RParams) (B cin H W : ℕ) (x y : TensorF)
    (hxy : x = y) :
    seFwd secfg sp H W x = seFwd secfg sp H W y ∧
    bneckFwdV bc bp B H W x = bneckFwdV bc bp B H W y ∧
    blockFwdV us B H W x = blockFwdV us B H W y ∧
    resnetFwdV rc rp B cin H W x = resnetFwdV rc rp B cin H W y := by
  subst hxy
  exact ⟨rfl, rfl, rfl, rfl⟩

/-- C10 (witness): the statement instantiated at concrete modules (the
default ResNet block layout with all-zero parameters) and a pair of
definitionally equal inputs. -/
theorem forward_deterministic_witness :
    idxT = idxT ∧
    (seFwd ⟨16, 1⟩ zeroSEP 1 1 idxT = seFwd ⟨16, 1⟩ zeroSEP 1 1 idxT ∧
     bneckFwdV ⟨2, 1, 2, 1, false, false⟩ zeroBNP 1 1 1 idxT =
       bneckFwdV ⟨2, 1, 2, 1, false, false⟩ zeroBNP 1 1 1 idxT ∧
     blockFwdV ((mkBlock 64 64 256 3 1).map (fun cfg => (cfg, zeroBNP))) 1 1 1 idxT =
       blockFwdV ((mkBlock 64 64 256 3 1).map (fun cfg => (cfg, zeroBNP))) 1 1 1 idxT ∧
     resnetFwdV ⟨10, mkBlock 64 64 256 3 1, mkBlock 256 128 512 4 2,
         mkBlock 512 256 1024 6 2, mkBlock 1024 512 2048 3 2⟩
         zeroRP 1 3 1 1 idxT =
       resnetFwdV ⟨10, mkBlock 64 64 256 3 1, mkBlock 256 128 512 4 2,
         mkBlock 512 256 1024 6 2, mkBlock 1024 512 2048 3 2⟩
         zeroRP 1 3 1 1 idxT) :=
  ⟨rfl,
   forward_deterministic ⟨16, 1⟩ zeroSEP ⟨2, 1, 2, 1, false, false⟩ zeroBNP
     ((mkBlock 64 64 256 3 1).map (fun cfg => (cfg, zeroBNP)))
     ⟨10, mkBlock 64 64 256 3 1, mkBlock 256 128 512 4 2,
       mkBlock 512 256 1024 6 2, mkBlock 1024 512 2048 3 2⟩
     zeroRP 1 3 1 1 idxT idxT rfl⟩

end ResNetSpec
